import Mathlib

/-!
Verification development for the voice-lane repository.

The definitions below are a shallow embedding of the segmentation and
queueing logic of `src/lib/continuous_audio_service.py`,
`src/lib/streaming_audio_service.py` and `src/bin/vad_detector.py`.
Wall-clock times are modelled as rationals, audio sample values as
integers, queues (`queue.Queue`) as Lean lists with `put` appending at
the back and `get` taking from the front, and the one fallible step
inside finalization (writing the collected samples to a WAV file) as an
explicit boolean `write_ok` parameter.
-/

namespace VoiceLane

/-- Exact mean absolute amplitude of a frame. This is the streaming
service's energy, `np.mean(np.abs(audio_np.astype(np.float32)))`: the
cast to float precedes `np.abs`, so the absolute value is exact even at
the int16 minimum. NumPy returns NaN on an empty array and
`nan > threshold` is `False`; modelling the empty mean as `0` yields the
same classification. -/
def mean_abs_amplitude (xs : List Int) : ℚ :=
  if xs.length = 0 then 0
  else ((xs.map (fun x => ((x.natAbs : ℚ)))).sum) / (xs.length : ℚ)

/-- `np.abs` on an int16 value: two's-complement negation wraps, so the
absolute value of -32768 is -32768 itself; every other in-range value
gets its true absolute value. -/
def int16_abs (x : Int) : Int :=
  if x = -32768 then -32768 else (x.natAbs : Int)

/-- The continuous service's energy, `np.mean(np.abs(audio_np))` with
`audio_np` still of dtype int16: the absolute values wrap at -32768
before the mean is taken. Empty mean modelled as `0` as above. -/
def mean_int16_abs (xs : List Int) : ℚ :=
  if xs.length = 0 then 0
  else ((xs.map (fun x => ((int16_abs x : ℚ)))).sum) / (xs.length : ℚ)

namespace Continuous

/-- Configuration constants of `ContinuousAudioService.__init__`. -/
structure Config where
  sample_rate : ℚ
  silence_duration : ℚ
  min_speech_duration : ℚ
  max_speech_duration : ℚ
  chunk_size : Nat
deriving DecidableEq

/-- The default values set in `ContinuousAudioService.__init__`. -/
def defaultConfig : Config :=
  { sample_rate := 16000
    silence_duration := 2
    min_speech_duration := 1/2
    max_speech_duration := 30
    chunk_size := 320 }

/-- The `speech_data` dict built in `_finalize_speech_recording`; the
temporary WAV file is represented by the samples written into it. -/
structure SpeechData where
  samples : List Int
  timestamp : ℚ
  duration : ℚ
  agent_was_speaking : Bool
deriving DecidableEq

/-- The mutable fields of `ContinuousAudioService` that the segmentation
logic reads or writes. -/
structure State where
  listening : Bool
  recording_speech : Bool
  agent_speaking : Bool
  speech_frames : List Int
  speech_start_time : ℚ
  last_speech_time : ℚ
  speech_queue : List SpeechData
  buffered_speech : List SpeechData
  speech_chunks : Nat
  processed_utterances : Nat
deriving DecidableEq

/-- State right after `__init__` followed by `start_listening`. -/
def startedState : State :=
  { listening := true
    recording_speech := false
    agent_speaking := false
    speech_frames := []
    speech_start_time := 0
    last_speech_time := 0
    speech_queue := []
    buffered_speech := []
    speech_chunks := 0
    processed_utterances := 0 }

/-- The `speech_data` dict built in `_finalize_speech_recording`:
`duration` is `len(speech_audio) / self.sample_rate` and
`agent_was_speaking` snapshots `self.agent_speaking`. -/
def mkSpeechData (cfg : Config) (now : ℚ) (s : State) : SpeechData :=
  { samples := s.speech_frames
    timestamp := now
    duration := (s.speech_frames.length : ℚ) / cfg.sample_rate
    agent_was_speaking := s.agent_speaking }

/-- `_finalize_speech_recording`: early-returns when `speech_frames` is
empty; otherwise writes the WAV file (which may fail: `write_ok`),
queues the speech data on `buffered_speech` when the agent is speaking
and on `speech_queue` otherwise, and in a `finally` block always resets
`recording_speech` and `speech_frames`. -/
def finalize_speech_recording (cfg : Config) (write_ok : Bool) (now : ℚ)
    (s : State) : State :=
  if s.speech_frames.isEmpty then
    { s with recording_speech := false }
  else if write_ok then
    let u := mkSpeechData cfg now s
    if s.agent_speaking then
      { s with buffered_speech := s.buffered_speech ++ [u]
               processed_utterances := s.processed_utterances + 1
               recording_speech := false
               speech_frames := [] }
    else
      { s with speech_queue := s.speech_queue ++ [u]
               processed_utterances := s.processed_utterances + 1
               recording_speech := false
               speech_frames := [] }
  else
    { s with recording_speech := false, speech_frames := [] }

/-- `_handle_speech_detection`: the per-frame state-machine step, with
`now` standing for `time.time()`. -/
def handle_speech_detection (cfg : Config) (write_ok : Bool)
    (is_speech : Bool) (audio_np : List Int) (now : ℚ) (s : State) : State :=
  if is_speech then
    let s1 := { s with speech_chunks := s.speech_chunks + 1
                       last_speech_time := now }
    let s2 :=
      if s1.recording_speech then s1
      else { s1 with recording_speech := true
                     speech_start_time := now
                     speech_frames := [] }
    let s3 := { s2 with speech_frames := s2.speech_frames ++ audio_np }
    if cfg.max_speech_duration < now - s3.speech_start_time then
      finalize_speech_recording cfg write_ok now s3
    else s3
  else
    if s.recording_speech then
      if cfg.silence_duration ≤ now - s.last_speech_time then
        if cfg.min_speech_duration ≤ now - s.speech_start_time then
          finalize_speech_recording cfg write_ok now s
        else
          { s with recording_speech := false, speech_frames := [] }
      else s
    else s

/-- `_detect_speech`: uses the WebRTC VAD when it is available and the
raw byte length matches `chunk_size * 2`; on VAD failure or otherwise it
falls back to the energy test `np.mean(np.abs(audio_np)) > 500`, where
`audio_np` is still int16 so `np.abs` wraps at -32768 (`mean_int16_abs`).
The VAD call is an external capability, represented by its outcome. -/
def detect_speech (cfg : Config) (vad_available : Bool)
    (vad_result : Except Unit Bool) (audio_data_len : Nat)
    (audio_np : List Int) : Bool :=
  if vad_available = true ∧ audio_data_len = cfg.chunk_size * 2 then
    match vad_result with
    | .ok b => b
    | .error _ => decide ((500 : ℚ) < mean_int16_abs audio_np)
  else
    decide ((500 : ℚ) < mean_int16_abs audio_np)

/-- The `while not empty: get_nowait / put` loop of
`_process_buffered_speech`, moving items head-first. -/
def drainLoop (ready held : List SpeechData) : List SpeechData × List SpeechData :=
  match held with
  | [] => (ready, [])
  | u :: rest => drainLoop (ready ++ [u]) rest

/-- `_process_buffered_speech`: drain `buffered_speech` into
`speech_queue`. -/
def process_buffered_speech (s : State) : State :=
  let p := drainLoop s.speech_queue s.buffered_speech
  { s with speech_queue := p.1, buffered_speech := p.2 }

/-- `set_agent_speaking`: record the flag, and on clearing it process
buffered speech. -/
def set_agent_speaking (speaking : Bool) (s : State) : State :=
  let s1 := { s with agent_speaking := speaking }
  if speaking then s1 else process_buffered_speech s1

/-- `stop_listening`: early-returns when not listening; otherwise clears
`listening` and tears down the audio stream and threads. It touches no
queue and no accumulator field. -/
def stop_listening (s : State) : State :=
  if s.listening then { s with listening := false } else s

/-- One frame of input to the capture loop: the classification result,
the decoded samples, and the capture time. -/
structure FrameInput where
  is_speech : Bool
  samples : List Int
  now : ℚ
deriving DecidableEq

/-- Iterating `_handle_speech_detection` over a list of captured frames
(with the WAV write always succeeding). -/
def run (cfg : Config) (inputs : List FrameInput) (s : State) : State :=
  List.foldl
    (fun st i => handle_speech_detection cfg true i.is_speech i.samples i.now st)
    s inputs

end Continuous

namespace Streaming

/-- Configuration constants of `StreamingAudioService.__init__`. -/
structure Config where
  sample_rate : ℚ
  chunk_size : Nat
  silence_threshold_ms : ℚ
  min_audio_duration_ms : ℚ
  max_audio_duration_ms : ℚ
  processing_maxsize : Nat
  results_maxsize : Nat
deriving DecidableEq

/-- The default values set in `StreamingAudioService.__init__`:
`chunk_size = 16000 * 50 / 1000 = 800`. -/
def defaultConfig : Config :=
  { sample_rate := 16000
    chunk_size := 800
    silence_threshold_ms := 800
    min_audio_duration_ms := 200
    max_audio_duration_ms := 10000
    processing_maxsize := 10
    results_maxsize := 20 }

/-- The `audio_info` dict built in `_queue_audio_for_processing`. -/
structure AudioInfo where
  audio_data : List Int
  duration : ℚ
  timestamp : ℚ
deriving DecidableEq

/-- Drop-oldest insertion into a bounded `queue.Queue`: `put_nowait`,
and on `queue.Full` a `get_nowait` followed by `put_nowait`. This is the
overflow handling of `_queue_audio_for_processing` (processing queue)
and of `_process_audio_data` (transcription-results queue, which checks
`full()` first — same effect). -/
def queue_put_drop_oldest {α : Type} (maxsize : Nat) (q : List α) (x : α) :
    List α :=
  if q.length < maxsize then q ++ [x] else q.tail ++ [x]

/-- The mutable fields of `StreamingAudioService` used by the capture
and stop paths. -/
structure State where
  is_streaming : Bool
  audio_buffer : List Int
  speech_start_time : ℚ
  last_speech_time : ℚ
  processing_queue : List AudioInfo
deriving DecidableEq

/-- `_queue_audio_for_processing`: early-returns on an empty buffer,
builds the `audio_info` record, inserts it with drop-oldest overflow,
and in a `finally` block clears the buffer and resets both timestamps.
The `force` keyword parameter of the Python function is never read in
its body, so it does not appear here. -/
def queue_audio_for_processing (cfg : Config) (now : ℚ) (s : State) : State :=
  if s.audio_buffer.isEmpty then s
  else
    let info : AudioInfo :=
      { audio_data := s.audio_buffer
        duration := (s.audio_buffer.length : ℚ) / cfg.sample_rate
        timestamp := now }
    { s with processing_queue :=
               queue_put_drop_oldest cfg.processing_maxsize s.processing_queue info
             audio_buffer := []
             speech_start_time := 0
             last_speech_time := 0 }

/-- `_detect_speech_in_chunk`: WebRTC VAD when available and the byte
length matches, energy fallback `mean(abs(float(audio))) > 200`
otherwise or when the VAD raises. -/
def detect_speech_in_chunk (cfg : Config) (vad_available : Bool)
    (vad_result : Except Unit Bool) (raw_len : Nat)
    (audio_np : List Int) : Bool :=
  if vad_available = true ∧ raw_len = cfg.chunk_size * 2 then
    match vad_result with
    | .ok b => b
    | .error _ => decide ((200 : ℚ) < mean_abs_amplitude audio_np)
  else
    decide ((200 : ℚ) < mean_abs_amplitude audio_np)

/-- The body of one `_capture_loop` iteration, after the chunk has been
read and classified; `now` is `time.time() * 1000`. -/
def capture_loop_step (cfg : Config) (is_speech : Bool)
    (audio_np : List Int) (now : ℚ) (s : State) : State :=
  if is_speech then
    let s1 := { s with audio_buffer := s.audio_buffer ++ audio_np
                       last_speech_time := now }
    if s1.speech_start_time = 0 then { s1 with speech_start_time := now }
    else s1
  else
    if s.audio_buffer.isEmpty then s
    else
      let silence_duration := now - s.last_speech_time
      let total_duration := now - s.speech_start_time
      let should_process :=
        cfg.silence_threshold_ms ≤ silence_duration ∨
        cfg.max_audio_duration_ms ≤ total_duration
      if should_process ∧ cfg.min_audio_duration_ms ≤ total_duration then
        queue_audio_for_processing cfg now s
      else s

/-- `stop_realtime_capture`: early-returns when not streaming; clears
`is_streaming`, then queues any remaining `audio_buffer` by calling
`_queue_audio_for_processing(force=True)`, then tears down the stream
and threads. -/
def stop_realtime_capture (cfg : Config) (now : ℚ) (s : State) : State :=
  if s.is_streaming then
    let s1 := { s with is_streaming := false }
    if s1.audio_buffer.isEmpty then s1
    else queue_audio_for_processing cfg now s1
  else s

end Streaming

namespace VadDetector

/-- What `wave.open` on a readable WAV file yields: channel count,
sample width, frame rate, and the raw data bytes from `readframes`. -/
structure WavParams where
  nchannels : Nat
  sampwidth : Nat
  framerate : Nat
  frames : List Nat
deriving DecidableEq

/-- The byte offsets visited by the Python loop
`for start in range(0, len(frames) - frame_size, frame_size)`; the
number of iterations is `ceil((n - fs) / fs)` with truncated
subtraction, matching the empty range Python produces when
`n <= fs`. -/
def loopOffsets (n fs : Nat) : List Nat :=
  (List.range ((n - fs + fs - 1) / fs)).map (fun i => i * fs)

/-- `frames[start : start + frame_size]`. -/
def chunkAt (frames : List Nat) (fs start : Nat) : List Nat :=
  (frames.drop start).take fs

/-- The counting loop of `detect_speech`: for each visited offset, take
the chunk, and when it is complete increment `total_frames` and — when
the (fallible) `vad.is_speech` call answers speech — `speech_frames`. A
raised exception aborts the whole computation. -/
def vadLoop (vad : List Nat → Nat → Except Unit Bool) (frames : List Nat)
    (frame_rate frame_size : Nat) (offsets : List Nat)
    (speech_frames total_frames : Nat) : Except Unit (Nat × Nat) :=
  match offsets with
  | [] => .ok (speech_frames, total_frames)
  | start :: rest =>
    let chunk := chunkAt frames frame_size start
    if chunk.length = frame_size then
      match vad chunk frame_rate with
      | .ok b =>
        vadLoop vad frames frame_rate frame_size rest
          (if b then speech_frames + 1 else speech_frames) (total_frames + 1)
      | .error e => .error e
    else
      vadLoop vad frames frame_rate frame_size rest speech_frames total_frames

/-- `detect_speech(audio_file)` of `src/bin/vad_detector.py`. The file
system and the two external capabilities are represented by their
outcomes: whether the path exists, the file size, the result of
`wave.open` + `readframes` (an exception falls into the size-heuristic
handler), and the per-chunk `vad.is_speech` call (ditto). -/
def detect_speech (file_exists : Bool) (file_size : Nat)
    (wav : Except Unit WavParams)
    (vad : List Nat → Nat → Except Unit Bool) : Bool :=
  if file_exists then
    match wav with
    | .error _ => decide (1000 < file_size)
    | .ok wf =>
      if wf.nchannels ≠ 1 then false
      else if wf.sampwidth ≠ 2 then false
      else if ¬ wf.framerate ∈ [8000, 16000, 32000, 48000] then false
      else
        let frame_size := wf.framerate * 20 / 1000 * 2
        match vadLoop vad wf.frames wf.framerate frame_size
            (loopOffsets wf.frames.length frame_size) 0 0 with
        | .error _ => decide (1000 < file_size)
        | .ok (speech_frames, total_frames) =>
          if 0 < total_frames then
            decide ((3 : ℚ) / 10 <
              (speech_frames : ℚ) / (total_frames : ℚ))
          else false
  else false

/-- Ratio verdict shared by the characterizations below: speech iff
there was at least one counted frame and strictly more than 30% of the
counted frames were positive. -/
def ratio_verdict (vs : List Bool) : Bool :=
  if 0 < vs.length then
    decide ((3 : ℚ) / 10 < (vs.count true : ℚ) / (vs.length : ℚ))
  else false

/-- The per-frame verdicts of a never-throwing VAD over the offsets the
code actually scans. -/
def examinedVerdicts (vadB : List Nat → Nat → Bool) (wf : WavParams) :
    List Bool :=
  (loopOffsets wf.frames.length (wf.framerate * 20 / 1000 * 2)).map
    (fun st => vadB (chunkAt wf.frames (wf.framerate * 20 / 1000 * 2) st)
      wf.framerate)

/-- Claim wording (for refinement comparison): the verdicts over ALL
complete 20 ms frames of the data, i.e. offsets `0, fs, ...,
(n / fs - 1) * fs`. -/
def completeVerdicts (vadB : List Nat → Nat → Bool) (wf : WavParams) :
    List Bool :=
  ((List.range (wf.frames.length / (wf.framerate * 20 / 1000 * 2))).map
      (fun i => i * (wf.framerate * 20 / 1000 * 2))).map
    (fun st => vadB (chunkAt wf.frames (wf.framerate * 20 / 1000 * 2) st)
      wf.framerate)

/-- Claim wording (for refinement comparison): speech iff more than 30%
of the complete 20 ms frames are VAD-positive. -/
def speech_by_complete_frames (vadB : List Nat → Nat → Bool)
    (wf : WavParams) : Bool :=
  ratio_verdict (completeVerdicts vadB wf)

/-- Corrected wording: speech iff more than 30% of the frames the scan
examines are VAD-positive. -/
def speech_by_examined_frames (vadB : List Nat → Nat → Bool)
    (wf : WavParams) : Bool :=
  ratio_verdict (examinedVerdicts vadB wf)

end VadDetector

/-! Theorems. -/

namespace Continuous

/-- Draining moves every held item to the back of the ready list,
preserving order. -/
theorem drainLoop_eq (ready held : List SpeechData) :
    drainLoop ready held = (ready ++ held, []) := by
  induction held generalizing ready with
  | nil => simp [drainLoop]
  | cons u rest ih => simp [drainLoop, ih]

end Continuous

/-- Claim C4: clearing the agent-speaking flag (with no concurrent
dispatch) leaves the ready queue equal to its previous contents followed
by the previous held-queue contents in FIFO order, and empties the held
queue; no utterance is lost or reordered by the drain. -/
theorem C4_drain_preserves_fifo (s : Continuous.State) :
    (Continuous.set_agent_speaking false s).speech_queue =
      s.speech_queue ++ s.buffered_speech ∧
    (Continuous.set_agent_speaking false s).buffered_speech = [] := by
  simp [Continuous.set_agent_speaking, Continuous.process_buffered_speech,
    Continuous.drainLoop_eq]

/-- Claim C9: when the WAV write inside `_finalize_speech_recording`
fails, no utterance is enqueued on either queue, the utterance counter
is untouched, and the session ends Idle with an empty accumulator, so
subsequent frames are processed normally. -/
theorem C9_finalize_error_drops_utterance (cfg : Continuous.Config)
    (now : ℚ) (s : Continuous.State) :
    (Continuous.finalize_speech_recording cfg false now s).speech_queue =
      s.speech_queue ∧
    (Continuous.finalize_speech_recording cfg false now s).buffered_speech =
      s.buffered_speech ∧
    (Continuous.finalize_speech_recording cfg false now s).processed_utterances =
      s.processed_utterances ∧
    (Continuous.finalize_speech_recording cfg false now s).recording_speech =
      false ∧
    (Continuous.finalize_speech_recording cfg false now s).speech_frames =
      [] := by
  by_cases h : s.speech_frames.isEmpty
  · have hnil : s.speech_frames = [] := by simpa using h
    simp [Continuous.finalize_speech_recording, h, hnil]
  · simp [Continuous.finalize_speech_recording, h]

/-- Claim C5: the utterance handed over at finalize carries
`agent_was_speaking` equal to the agent-speaking flag read at finalize
time, and it is pushed to the held (`buffered_speech`) queue when that
flag is true and to the ready (`speech_queue`) queue when it is
false. -/
theorem C5_dispatch_by_agent_flag (cfg : Continuous.Config) (now : ℚ)
    (s : Continuous.State) (hne : s.speech_frames ≠ []) :
    (Continuous.mkSpeechData cfg now s).agent_was_speaking =
      s.agent_speaking ∧
    (s.agent_speaking = true →
      (Continuous.finalize_speech_recording cfg true now s).buffered_speech =
        s.buffered_speech ++ [Continuous.mkSpeechData cfg now s] ∧
      (Continuous.finalize_speech_recording cfg true now s).speech_queue =
        s.speech_queue) ∧
    (s.agent_speaking = false →
      (Continuous.finalize_speech_recording cfg true now s).speech_queue =
        s.speech_queue ++ [Continuous.mkSpeechData cfg now s] ∧
      (Continuous.finalize_speech_recording cfg true now s).buffered_speech =
        s.buffered_speech) := by
  have h : s.speech_frames.isEmpty = false := by
    simpa [List.isEmpty_iff] using hne
  refine ⟨rfl, ?_, ?_⟩
  · intro hag
    simp [Continuous.finalize_speech_recording, h, hag]
  · intro hag
    simp [Continuous.finalize_speech_recording, h, hag]

/-- Witness for C5 at a concrete accumulating state. -/
theorem C5_dispatch_by_agent_flag_witness :
    let s : Continuous.State :=
      { Continuous.startedState with
          recording_speech := true, speech_frames := [5, 6] }
    (Continuous.mkSpeechData Continuous.defaultConfig 3 s).agent_was_speaking =
      s.agent_speaking ∧
    (s.agent_speaking = true →
      (Continuous.finalize_speech_recording Continuous.defaultConfig true 3 s).buffered_speech =
        s.buffered_speech ++ [Continuous.mkSpeechData Continuous.defaultConfig 3 s] ∧
      (Continuous.finalize_speech_recording Continuous.defaultConfig true 3 s).speech_queue =
        s.speech_queue) ∧
    (s.agent_speaking = false →
      (Continuous.finalize_speech_recording Continuous.defaultConfig true 3 s).speech_queue =
        s.speech_queue ++ [Continuous.mkSpeechData Continuous.defaultConfig 3 s] ∧
      (Continuous.finalize_speech_recording Continuous.defaultConfig true 3 s).buffered_speech =
        s.buffered_speech) :=
  C5_dispatch_by_agent_flag Continuous.defaultConfig 3
    { Continuous.startedState with
        recording_speech := true, speech_frames := [5, 6] }
    (by decide)

/-- Claim C1: in the Accumulating state, a silence-classified frame with
`now - last_speech_time >= silence_duration` finalizes (with the WAV
write succeeding): when the elapsed span since speech start reaches
`min_speech_duration` exactly one utterance is enqueued with the
dispatcher (held queue if the agent is speaking, ready queue otherwise);
when it does not, the accumulator is discarded and neither queue grows;
in both cases the session transitions to Idle with an empty
accumulator. -/
theorem C1_silence_finalizes (cfg : Continuous.Config)
    (s : Continuous.State) (a : List Int) (now : ℚ)
    (hrec : s.recording_speech = true)
    (hne : s.speech_frames ≠ [])
    (hsil : cfg.silence_duration ≤ now - s.last_speech_time) :
    (Continuous.handle_speech_detection cfg true false a now s).recording_speech =
      false ∧
    (Continuous.handle_speech_detection cfg true false a now s).speech_frames =
      [] ∧
    (if cfg.min_speech_duration ≤ now - s.speech_start_time then
      (if s.agent_speaking then
        (Continuous.handle_speech_detection cfg true false a now s).buffered_speech =
          s.buffered_speech ++ [Continuous.mkSpeechData cfg now s] ∧
        (Continuous.handle_speech_detection cfg true false a now s).speech_queue =
          s.speech_queue
      else
        (Continuous.handle_speech_detection cfg true false a now s).speech_queue =
          s.speech_queue ++ [Continuous.mkSpeechData cfg now s] ∧
        (Continuous.handle_speech_detection cfg true false a now s).buffered_speech =
          s.buffered_speech)
    else
      (Continuous.handle_speech_detection cfg true false a now s).speech_queue =
        s.speech_queue ∧
      (Continuous.handle_speech_detection cfg true false a now s).buffered_speech =
        s.buffered_speech) := by
  have hemp : s.speech_frames.isEmpty = false := by
    simpa [List.isEmpty_iff] using hne
  by_cases hmin : cfg.min_speech_duration ≤ now - s.speech_start_time
  · by_cases hag : s.agent_speaking
    · simp [Continuous.handle_speech_detection, hrec, hsil, hmin, hag,
        Continuous.finalize_speech_recording, hemp]
    · simp [Continuous.handle_speech_detection, hrec, hsil, hmin, hag,
        Continuous.finalize_speech_recording, hemp]
  · simp [Continuous.handle_speech_detection, hrec, hsil, hmin]

/-- Witness for C1 at a concrete silence frame ending a long-enough
utterance. -/
theorem C1_silence_finalizes_witness :
    let s : Continuous.State :=
      { Continuous.startedState with
          recording_speech := true, speech_frames := [5] }
    (Continuous.handle_speech_detection Continuous.defaultConfig true false [0] 2 s).recording_speech =
      false ∧
    (Continuous.handle_speech_detection Continuous.defaultConfig true false [0] 2 s).speech_frames =
      [] ∧
    (if Continuous.defaultConfig.min_speech_duration ≤ (2 : ℚ) - s.speech_start_time then
      (if s.agent_speaking then
        (Continuous.handle_speech_detection Continuous.defaultConfig true false [0] 2 s).buffered_speech =
          s.buffered_speech ++ [Continuous.mkSpeechData Continuous.defaultConfig 2 s] ∧
        (Continuous.handle_speech_detection Continuous.defaultConfig true false [0] 2 s).speech_queue =
          s.speech_queue
      else
        (Continuous.handle_speech_detection Continuous.defaultConfig true false [0] 2 s).speech_queue =
          s.speech_queue ++ [Continuous.mkSpeechData Continuous.defaultConfig 2 s] ∧
        (Continuous.handle_speech_detection Continuous.defaultConfig true false [0] 2 s).buffered_speech =
          s.buffered_speech)
    else
      (Continuous.handle_speech_detection Continuous.defaultConfig true false [0] 2 s).speech_queue =
        s.speech_queue ∧
      (Continuous.handle_speech_detection Continuous.defaultConfig true false [0] 2 s).buffered_speech =
        s.buffered_speech) :=
  C1_silence_finalizes Continuous.defaultConfig
    { Continuous.startedState with
        recording_speech := true, speech_frames := [5] }
    [0] 2 (by decide) (by decide) (by norm_num [Continuous.startedState,
      Continuous.defaultConfig])

/-- A four-frame trace with the default configuration: speech at t=0,
silence at t=1, speech at t=1.9, silence at t=3.9. The final silence
frame triggers finalization because the wall-clock gates pass, yet only
two 1-sample speech frames were accumulated. -/
def c2trace : List Continuous.FrameInput :=
  [{ is_speech := true, samples := [100], now := 0 },
   { is_speech := false, samples := [0], now := 1 },
   { is_speech := true, samples := [100], now := 19/10 },
   { is_speech := false, samples := [0], now := 39/10 }]

/-- Counterexample to claim C2: running the engine from its started
state over `c2trace` enqueues an utterance on the ready queue whose
`duration` field, `sample_count / sample_rate = 1/8000`, is strictly
below `min_speech_duration = 1/2`; the claimed invariant
`duration ∈ [min_speech_duration, max_speech_duration]` fails. -/
theorem C2_duration_field_below_min :
    ((Continuous.run Continuous.defaultConfig c2trace
        Continuous.startedState).speech_queue.map
      (fun u => u.duration)) = [1/8000] ∧
    (1 : ℚ)/8000 < Continuous.defaultConfig.min_speech_duration := by
  constructor
  · norm_num [Continuous.run, c2trace, Continuous.startedState,
      Continuous.defaultConfig, Continuous.handle_speech_detection,
      Continuous.finalize_speech_recording, Continuous.mkSpeechData,
      List.foldl]
  · norm_num [Continuous.defaultConfig]

/-- Claim C2 (amended): the minimum-duration gate compares wall-clock
spans, not the duration field. Whenever a silence-classified frame
changes either queue, the silence span reached `silence_duration` and
the wall-clock span since speech start reached `min_speech_duration`;
the utterance's `duration` field itself (sample count over sample rate)
can be smaller than `min_speech_duration`, because silence-classified
frames inside the utterance are never accumulated. -/
theorem C2_wall_clock_gate (cfg : Continuous.Config)
    (s : Continuous.State) (a : List Int) (now : ℚ) (w : Bool)
    (h : (Continuous.handle_speech_detection cfg w false a now s).speech_queue ≠
        s.speech_queue ∨
      (Continuous.handle_speech_detection cfg w false a now s).buffered_speech ≠
        s.buffered_speech) :
    cfg.silence_duration ≤ now - s.last_speech_time ∧
    cfg.min_speech_duration ≤ now - s.speech_start_time := by
  by_cases hrec : s.recording_speech
  · by_cases hsil : cfg.silence_duration ≤ now - s.last_speech_time
    · by_cases hmin : cfg.min_speech_duration ≤ now - s.speech_start_time
      · exact ⟨hsil, hmin⟩
      · exfalso
        rcases h with h | h <;>
          simp [Continuous.handle_speech_detection, hrec, hsil, hmin] at h
    · exfalso
      rcases h with h | h <;>
        simp [Continuous.handle_speech_detection, hrec, hsil] at h
  · exfalso
    rcases h with h | h <;>
      simp [Continuous.handle_speech_detection, hrec] at h

/-- Witness for C2 (amended): a concrete silence frame that changes the
ready queue, for which both wall-clock gates indeed hold. -/
theorem C2_wall_clock_gate_witness :
    Continuous.defaultConfig.silence_duration ≤
      (2 : ℚ) - ({ Continuous.startedState with
        recording_speech := true,
        speech_frames := [5] } : Continuous.State).last_speech_time ∧
    Continuous.defaultConfig.min_speech_duration ≤
      (2 : ℚ) - ({ Continuous.startedState with
        recording_speech := true,
        speech_frames := [5] } : Continuous.State).speech_start_time :=
  C2_wall_clock_gate Continuous.defaultConfig
    { Continuous.startedState with
        recording_speech := true, speech_frames := [5] }
    [0] 2 true
    (Or.inl (by
      norm_num [Continuous.handle_speech_detection,
        Continuous.finalize_speech_recording, Continuous.mkSpeechData,
        Continuous.startedState, Continuous.defaultConfig]))

/-- Counterexample to claim C3: in the Accumulating state, a
silence-classified frame arriving before the silence threshold does NOT
have its samples appended — the accumulator stays `[7]` instead of
becoming `[7, 9]`. -/
theorem C3_silence_frame_not_appended :
    (Continuous.handle_speech_detection Continuous.defaultConfig true false
        [9] 1
        { Continuous.startedState with
            recording_speech := true, speech_frames := [7] }).speech_frames =
      [7] ∧
    ¬ ((Continuous.handle_speech_detection Continuous.defaultConfig true false
        [9] 1
        { Continuous.startedState with
            recording_speech := true, speech_frames := [7] }).speech_frames =
      [7] ++ [9]) := by
  constructor <;>
    norm_num [Continuous.handle_speech_detection, Continuous.startedState,
      Continuous.defaultConfig]

/-- Claim C3 (amended): in the Accumulating state, a silence-classified
frame whose silence span is still shorter than `silence_duration` causes
no state change at all: in particular its samples are NOT appended to
the accumulator (only speech-classified frames are accumulated, so
mid-utterance pauses are dropped from the finalized audio, not retained
verbatim). The same holds for the streaming capture loop, where the
frame is also dropped whenever the buffer is non-empty and neither the
silence threshold nor the maximum duration has been reached. -/
theorem C3_short_silence_no_change :
    (∀ (cfg : Continuous.Config) (s : Continuous.State) (a : List Int)
        (now : ℚ) (w : Bool), s.recording_speech = true →
      now - s.last_speech_time < cfg.silence_duration →
      Continuous.handle_speech_detection cfg w false a now s = s) ∧
    (∀ (cfg : Streaming.Config) (s : Streaming.State) (a : List Int)
        (now : ℚ),
      now - s.last_speech_time < cfg.silence_threshold_ms →
      now - s.speech_start_time < cfg.max_audio_duration_ms →
      Streaming.capture_loop_step cfg false a now s = s) := by
  constructor
  · intro cfg s a now w hrec hsil
    simp [Continuous.handle_speech_detection, hrec, not_le.mpr hsil]
  · intro cfg s a now hsil htot
    by_cases hbuf : s.audio_buffer.isEmpty <;>
      simp [Streaming.capture_loop_step, hbuf, not_le.mpr hsil,
        not_le.mpr htot]

/-- Witness for C3 (amended) at concrete mid-accumulation states. -/
theorem C3_short_silence_no_change_witness :
    Continuous.handle_speech_detection Continuous.defaultConfig true false
        [9] 1
        { Continuous.startedState with
            recording_speech := true, speech_frames := [7] } =
      { Continuous.startedState with
          recording_speech := true, speech_frames := [7] } ∧
    Streaming.capture_loop_step Streaming.defaultConfig false [9] 100
        { is_streaming := true, audio_buffer := [7],
          speech_start_time := 50, last_speech_time := 50,
          processing_queue := [] } =
      { is_streaming := true, audio_buffer := [7],
        speech_start_time := 50, last_speech_time := 50,
        processing_queue := [] } :=
  ⟨C3_short_silence_no_change.1 Continuous.defaultConfig
      { Continuous.startedState with
          recording_speech := true, speech_frames := [7] } [9] 1 true
      rfl (by norm_num [Continuous.startedState, Continuous.defaultConfig]),
    C3_short_silence_no_change.2 Streaming.defaultConfig
      { is_streaming := true, audio_buffer := [7],
        speech_start_time := 50, last_speech_time := 50,
        processing_queue := [] } [9] 100
      (by norm_num [Streaming.defaultConfig])
      (by norm_num [Streaming.defaultConfig])⟩

namespace Streaming

/-- As long as the queue stays under capacity, drop-oldest insertion is
plain FIFO insertion. -/
theorem foldl_put_of_le_maxsize {α : Type} (maxsize : Nat) :
    ∀ (xs : List α) (q : List α), q.length + xs.length ≤ maxsize →
      xs.foldl (queue_put_drop_oldest maxsize) q = q ++ xs := by
  intro xs
  induction xs with
  | nil => intro q _; simp
  | cons x rest ih =>
    intro q hlen
    have hq : q.length < maxsize := by
      simp at hlen
      omega
    have hstep : queue_put_drop_oldest maxsize q x = q ++ [x] := by
      simp [queue_put_drop_oldest, hq]
    have hrest : (q ++ [x]).length + rest.length ≤ maxsize := by
      simp at hlen ⊢
      omega
    calc (x :: rest).foldl (queue_put_drop_oldest maxsize) q
        = rest.foldl (queue_put_drop_oldest maxsize) (q ++ [x]) := by
          simp [List.foldl, hstep]
      _ = (q ++ [x]) ++ rest := ih (q ++ [x]) hrest
      _ = q ++ x :: rest := by simp

end Streaming

/-- Claim C6: a drop-oldest push on a queue holding exactly `maxsize`
items evicts the oldest item and appends the new one (never blocking,
never failing the producer — the operation is total and always returns
the updated queue); consequently pushing `maxsize + 1` items into an
empty queue retains exactly the most recent `maxsize` items in FIFO
order, the oldest having been evicted first. -/
theorem C6_drop_oldest_on_full {α : Type} (maxsize : Nat)
    (hpos : 0 < maxsize) (q : List α) (x : α)
    (hfull : q.length = maxsize) (xs : List α)
    (hlen : xs.length = maxsize + 1) :
    Streaming.queue_put_drop_oldest maxsize q x = q.tail ++ [x] ∧
    xs.foldl (Streaming.queue_put_drop_oldest maxsize) [] = xs.tail := by
  constructor
  · simp [Streaming.queue_put_drop_oldest, hfull]
  · rcases List.eq_nil_or_concat xs with hnil | ⟨ys, z, hys⟩
    · simp [hnil] at hlen
    · subst hys
      simp only [List.concat_eq_append] at hlen ⊢
      have hylen : ys.length = maxsize := by
        simp at hlen
        omega
      have hys_ne : ys ≠ [] := by
        intro hcon
        rw [hcon] at hylen
        simp at hylen
        omega
      have hfold : ys.foldl (Streaming.queue_put_drop_oldest maxsize) [] = ys := by
        simpa using Streaming.foldl_put_of_le_maxsize maxsize ys []
          (by simp [hylen])
      have hput : Streaming.queue_put_drop_oldest maxsize ys z =
          ys.tail ++ [z] := by
        simp [Streaming.queue_put_drop_oldest, hylen]
      calc (ys ++ [z]).foldl (Streaming.queue_put_drop_oldest maxsize) []
          = Streaming.queue_put_drop_oldest maxsize
              (ys.foldl (Streaming.queue_put_drop_oldest maxsize) []) z := by
            simp [List.foldl_append]
        _ = ys.tail ++ [z] := by rw [hfold, hput]
        _ = (ys ++ [z]).tail := by
            rcases ys with _ | ⟨y, ys0⟩
            · exact absurd rfl hys_ne
            · simp

/-- Witness for C6 with capacity 2 and three pushed items. -/
theorem C6_drop_oldest_on_full_witness :
    Streaming.queue_put_drop_oldest 2 [(1 : Int), 2] 3 =
      [(1 : Int), 2].tail ++ [3] ∧
    [(4 : Int), 5, 6].foldl (Streaming.queue_put_drop_oldest 2) [] =
      [(4 : Int), 5, 6].tail :=
  C6_drop_oldest_on_full 2 (by decide) [(1 : Int), 2] 3 (by decide)
    [(4 : Int), 5, 6] (by decide)

/-- Counterexample to claim C7: in the continuous service with the VAD
unavailable, the frame `[-32768]` has true mean absolute amplitude
32768 > 500, yet the energy fallback classifies it as silence — the
source applies `np.abs` to the int16 array, and the absolute value
wraps to -32768, so the computed energy is negative. -/
theorem C7_energy_wraps_at_int16_min :
    Continuous.detect_speech Continuous.defaultConfig false (.ok true) 0
        [-32768] = false ∧
    (500 : ℚ) < mean_abs_amplitude [-32768] := by
  constructor
  · norm_num [Continuous.detect_speech, mean_int16_abs, int16_abs]
  · norm_num [mean_abs_amplitude]

/-- Claim C7 (amended): per-frame classification is a total function
that never raises to its caller. When the VAD is unavailable, when the
raw byte length differs from the expected chunk size, or when the VAD
call raises, the result is the energy fallback. In the streaming
service the fallback classifies the frame as speech exactly when the
mean absolute amplitude exceeds 200 (the cast to float precedes
`np.abs`, so the mean is exact); in the continuous service `np.abs` is
applied to the int16 array and wraps at -32768, so the fallback is
speech exactly when the mean of the int16-wrapped absolute values
exceeds 500 — which coincides with the true mean absolute amplitude on
every frame containing no -32768 sample. -/
theorem C7_vad_fallback :
    (∀ (cfg : Continuous.Config) (va : Bool) (r : Except Unit Bool)
        (n : Nat) (a : List Int), va = false ∨ n ≠ cfg.chunk_size * 2 →
      Continuous.detect_speech cfg va r n a =
        decide ((500 : ℚ) < mean_int16_abs a)) ∧
    (∀ (cfg : Continuous.Config) (va : Bool) (n : Nat) (a : List Int)
        (e : Unit),
      Continuous.detect_speech cfg va (.error e) n a =
        decide ((500 : ℚ) < mean_int16_abs a)) ∧
    (∀ (cfg : Streaming.Config) (va : Bool) (r : Except Unit Bool)
        (n : Nat) (a : List Int), va = false ∨ n ≠ cfg.chunk_size * 2 →
      Streaming.detect_speech_in_chunk cfg va r n a =
        decide ((200 : ℚ) < mean_abs_amplitude a)) ∧
    (∀ (cfg : Streaming.Config) (va : Bool) (n : Nat) (a : List Int)
        (e : Unit),
      Streaming.detect_speech_in_chunk cfg va (.error e) n a =
        decide ((200 : ℚ) < mean_abs_amplitude a)) ∧
    (∀ (cfg : Continuous.Config) (r : Except Unit Bool) (n : Nat)
        (a : List Int),
      Continuous.detect_speech cfg false r n a = true ↔
        (500 : ℚ) < mean_int16_abs a) ∧
    (∀ a : List Int, (∀ x ∈ a, x ≠ -32768) →
      mean_int16_abs a = mean_abs_amplitude a) := by
  refine ⟨?_, ?_, ?_, ?_, ?_, ?_⟩
  · intro cfg va r n a h
    rcases h with h | h <;> simp [Continuous.detect_speech, h]
  · intro cfg va n a e
    by_cases hc : va = true ∧ n = cfg.chunk_size * 2 <;>
      simp [Continuous.detect_speech, hc]
  · intro cfg va r n a h
    rcases h with h | h <;> simp [Streaming.detect_speech_in_chunk, h]
  · intro cfg va n a e
    by_cases hc : va = true ∧ n = cfg.chunk_size * 2 <;>
      simp [Streaming.detect_speech_in_chunk, hc]
  · intro cfg r n a
    simp [Continuous.detect_speech]
  · intro a ha
    by_cases h0 : a.length = 0
    · simp [mean_int16_abs, mean_abs_amplitude, h0]
    · have hmap : a.map (fun x => ((int16_abs x : ℚ))) =
          a.map (fun x => ((x.natAbs : ℚ))) := by
        apply List.map_congr_left
        intro x hx
        simp [int16_abs, ha x hx, Int.cast_natAbs]
      simp only [mean_int16_abs, mean_abs_amplitude, h0, if_false, hmap]

/-- Witness for C7 at concrete frames: a loud frame without a VAD,
quiet frames routed through each fallback path, and a wrap-free frame
on which both energies agree. -/
theorem C7_vad_fallback_witness :
    Continuous.detect_speech Continuous.defaultConfig false (.ok false) 0
        [1000] = decide ((500 : ℚ) < mean_int16_abs [1000]) ∧
    Continuous.detect_speech Continuous.defaultConfig true (.error ()) 640
        [3] = decide ((500 : ℚ) < mean_int16_abs [3]) ∧
    Streaming.detect_speech_in_chunk Streaming.defaultConfig false
        (.ok false) 0 [1000] =
      decide ((200 : ℚ) < mean_abs_amplitude [1000]) ∧
    Streaming.detect_speech_in_chunk Streaming.defaultConfig true
        (.error ()) 1600 [3] =
      decide ((200 : ℚ) < mean_abs_amplitude [3]) ∧
    (Continuous.detect_speech Continuous.defaultConfig false (.ok false) 0
        [1000] = true ↔ (500 : ℚ) < mean_int16_abs [1000]) ∧
    mean_int16_abs [1000] = mean_abs_amplitude [1000] :=
  ⟨C7_vad_fallback.1 Continuous.defaultConfig false (.ok false) 0 [1000]
      (Or.inl rfl),
    C7_vad_fallback.2.1 Continuous.defaultConfig true 640 [3] (),
    C7_vad_fallback.2.2.1 Streaming.defaultConfig false (.ok false) 0
      [1000] (Or.inl rfl),
    C7_vad_fallback.2.2.2.1 Streaming.defaultConfig true 1600 [3] (),
    C7_vad_fallback.2.2.2.2.1 Continuous.defaultConfig (.ok false) 0
      [1000],
    C7_vad_fallback.2.2.2.2.2 [1000] (by decide)⟩

/-- Counterexample to claim C8: stopping the streaming service with one
buffered sample (duration 1/16000 s, far below the 200 ms minimum)
nevertheless enqueues that audio for processing — the accumulated audio
is enqueued even though it does not meet the minimum-duration rule. -/
theorem C8_stop_enqueues_below_minimum :
    ((Streaming.stop_realtime_capture Streaming.defaultConfig 1000
        { is_streaming := true, audio_buffer := [5],
          speech_start_time := 0, last_speech_time := 0,
          processing_queue := [] }).processing_queue.map
      (fun i => i.duration)) = [1/16000] ∧
    (1 : ℚ)/16000 * 1000 < Streaming.defaultConfig.min_audio_duration_ms := by
  constructor
  · norm_num [Streaming.stop_realtime_capture,
      Streaming.queue_audio_for_processing,
      Streaming.queue_put_drop_oldest, Streaming.defaultConfig]
  · norm_num [Streaming.defaultConfig]

/-- Claim C8 (amended): in the streaming service, stop with a non-empty
buffer queues the accumulated audio unconditionally — no
minimum-duration check is made; in the continuous service, stop performs
no flush at all: both queues, the accumulator and the utterance counter
are left untouched, so in-progress audio is never enqueued by stop even
when it meets the minimum-duration rule. -/
theorem C8_stop_behavior :
    (∀ (cfg : Streaming.Config) (now : ℚ) (s : Streaming.State),
      s.is_streaming = true → s.audio_buffer ≠ [] →
      (Streaming.stop_realtime_capture cfg now s).processing_queue =
        Streaming.queue_put_drop_oldest cfg.processing_maxsize
          s.processing_queue
          { audio_data := s.audio_buffer
            duration := (s.audio_buffer.length : ℚ) / cfg.sample_rate
            timestamp := now } ∧
      (Streaming.stop_realtime_capture cfg now s).audio_buffer = []) ∧
    (∀ s : Continuous.State,
      (Continuous.stop_listening s).speech_queue = s.speech_queue ∧
      (Continuous.stop_listening s).buffered_speech = s.buffered_speech ∧
      (Continuous.stop_listening s).speech_frames = s.speech_frames ∧
      (Continuous.stop_listening s).processed_utterances =
        s.processed_utterances) := by
  constructor
  · intro cfg now s hstr hbuf
    have hemp : s.audio_buffer.isEmpty = false := by
      simpa [List.isEmpty_iff] using hbuf
    simp [Streaming.stop_realtime_capture,
      Streaming.queue_audio_for_processing, hstr, hemp]
  · intro s
    by_cases h : s.listening <;> simp [Continuous.stop_listening, h]

/-- Witness for C8 (amended) at concrete states. -/
theorem C8_stop_behavior_witness :
    ((Streaming.stop_realtime_capture Streaming.defaultConfig 1000
        { is_streaming := true, audio_buffer := [5],
          speech_start_time := 0, last_speech_time := 0,
          processing_queue := [] }).processing_queue =
      Streaming.queue_put_drop_oldest
        Streaming.defaultConfig.processing_maxsize []
        { audio_data := [5]
          duration := (([5] : List Int).length : ℚ) /
            Streaming.defaultConfig.sample_rate
          timestamp := 1000 } ∧
     (Streaming.stop_realtime_capture Streaming.defaultConfig 1000
        { is_streaming := true, audio_buffer := [5],
          speech_start_time := 0, last_speech_time := 0,
          processing_queue := [] }).audio_buffer = []) ∧
    ((Continuous.stop_listening
        { Continuous.startedState with
            recording_speech := true,
            speech_frames := [1, 2, 3] }).speech_queue =
      ({ Continuous.startedState with
          recording_speech := true,
          speech_frames := [1, 2, 3] } : Continuous.State).speech_queue ∧
     (Continuous.stop_listening
        { Continuous.startedState with
            recording_speech := true,
            speech_frames := [1, 2, 3] }).buffered_speech =
      ({ Continuous.startedState with
          recording_speech := true,
          speech_frames := [1, 2, 3] } : Continuous.State).buffered_speech ∧
     (Continuous.stop_listening
        { Continuous.startedState with
            recording_speech := true,
            speech_frames := [1, 2, 3] }).speech_frames =
      ({ Continuous.startedState with
          recording_speech := true,
          speech_frames := [1, 2, 3] } : Continuous.State).speech_frames ∧
     (Continuous.stop_listening
        { Continuous.startedState with
            recording_speech := true,
            speech_frames := [1, 2, 3] }).processed_utterances =
      ({ Continuous.startedState with
          recording_speech := true,
          speech_frames := [1, 2, 3] } : Continuous.State).processed_utterances) :=
  ⟨C8_stop_behavior.1 Streaming.defaultConfig 1000
      { is_streaming := true, audio_buffer := [5],
        speech_start_time := 0, last_speech_time := 0,
        processing_queue := [] } rfl (by decide),
    C8_stop_behavior.2
      { Continuous.startedState with
          recording_speech := true, speech_frames := [1, 2, 3] }⟩

namespace VadDetector

/-- With a never-throwing VAD, the counting loop over offsets whose
chunks are all complete returns the number of positive verdicts and the
number of offsets. -/
theorem vadLoop_pure (vadB : List Nat → Nat → Bool) (frames : List Nat)
    (rate fs : Nat) :
    ∀ offs : List Nat,
      (∀ st ∈ offs, (chunkAt frames fs st).length = fs) →
      ∀ sp tot : Nat,
        vadLoop (fun c r => .ok (vadB c r)) frames rate fs offs sp tot =
          .ok (sp + (offs.map
                (fun st => vadB (chunkAt frames fs st) rate)).count true,
            tot + offs.length) := by
  intro offs
  induction offs with
  | nil => intro _ sp tot; simp [vadLoop]
  | cons st rest ih =>
    intro hcomp sp tot
    have hhead : (chunkAt frames fs st).length = fs :=
      hcomp st (by simp)
    have hrest : ∀ st0 ∈ rest, (chunkAt frames fs st0).length = fs := by
      intro st0 hst0
      exact hcomp st0 (by simp [hst0])
    have hstep : vadLoop (fun c r => .ok (vadB c r)) frames rate fs
        (st :: rest) sp tot =
        vadLoop (fun c r => .ok (vadB c r)) frames rate fs rest
          (if vadB (chunkAt frames fs st) rate then sp + 1 else sp)
          (tot + 1) := by
      rw [vadLoop, if_pos hhead]
    rw [hstep]
    cases hb : vadB (chunkAt frames fs st) rate <;>
      rw [ih hrest] <;>
      simp [hb, List.count_cons] <;> omega

/-- Every offset the Python loop visits yields a complete chunk: the
scan stops strictly before `len(frames) - frame_size`. -/
theorem loopOffsets_complete (frames : List Nat) (fs : Nat) (hfs : 0 < fs) :
    ∀ st ∈ loopOffsets frames.length fs,
      (chunkAt frames fs st).length = fs := by
  intro st hst
  simp only [loopOffsets, List.mem_map, List.mem_range] at hst
  obtain ⟨i, hi, rfl⟩ := hst
  have hlt : i * fs + fs < frames.length := by
    by_cases hcase : fs ≤ frames.length
    · have hstop : frames.length - fs + fs - 1 = frames.length - 1 := by
        omega
      rw [hstop] at hi
      have h1 : (i + 1) * fs ≤ ((frames.length - 1) / fs) * fs :=
        Nat.mul_le_mul_right fs hi
      have h2 : ((frames.length - 1) / fs) * fs ≤ frames.length - 1 :=
        Nat.div_mul_le_self _ _
      have h3 : (i + 1) * fs = i * fs + fs := by ring
      omega
    · exfalso
      have hz : frames.length - fs = 0 := by omega
      rw [hz] at hi
      have : (0 + fs - 1) / fs = 0 := Nat.div_eq_of_lt (by omega)
      rw [this] at hi
      omega
  simp only [chunkAt, List.length_take, List.length_drop]
  rw [Nat.min_eq_left (by omega)]

/-- All accepted WebRTC sample rates give a positive 20 ms frame
size. -/
theorem frame_size_pos (rate : Nat)
    (h : rate ∈ [8000, 16000, 32000, 48000]) :
    0 < rate * 20 / 1000 * 2 := by
  have h8 : 8000 ≤ rate := by
    simp at h
    rcases h with h | h | h | h <;> omega
  have h160 : 160 ≤ rate * 20 / 1000 :=
    le_trans (by norm_num) (Nat.div_le_div_right (Nat.mul_le_mul_right 20 h8))
  omega

/-- With a never-throwing VAD and an accepted format, `detect_speech`
computes exactly the examined-frames ratio verdict. -/
theorem detect_speech_pure (size : Nat) (wf : WavParams)
    (vadB : List Nat → Nat → Bool)
    (h1 : wf.nchannels = 1) (h2 : wf.sampwidth = 2)
    (h3 : wf.framerate ∈ [8000, 16000, 32000, 48000]) :
    detect_speech true size (.ok wf) (fun c r => .ok (vadB c r)) =
      speech_by_examined_frames vadB wf := by
  have hfs : 0 < wf.framerate * 20 / 1000 * 2 := frame_size_pos _ h3
  have hcomp := loopOffsets_complete wf.frames (wf.framerate * 20 / 1000 * 2) hfs
  rw [detect_speech]
  simp only [if_true, h1, h2, h3, ne_eq, not_true_eq_false, if_false,
    not_false_eq_true, ite_false, ite_true]
  rw [vadLoop_pure vadB wf.frames wf.framerate _ _ hcomp 0 0]
  simp only [Nat.zero_add]
  simp [speech_by_examined_frames, ratio_verdict, examinedVerdicts]

end VadDetector

/-- A WAV file whose data is exactly two complete 20 ms frames at
8000 Hz (frame size 320 bytes): 320 zero bytes then 320 one bytes. -/
def cexWav : VadDetector.WavParams :=
  { nchannels := 1, sampwidth := 2, framerate := 8000
    frames := List.replicate 320 0 ++ List.replicate 320 1 }

/-- A deterministic stand-in VAD: a chunk counts as speech exactly when
its first byte is 1. -/
def cexVadB : List Nat → Nat → Bool := fun c _ => decide (c.headI = 1)

set_option maxRecDepth 8000 in
/-- Counterexample to claim C10: on `cexWav`, more than 30% of the
complete 20 ms frames are VAD-positive (one of two frames, 50%), yet
`detect_speech` returns silence — its scan visits only offsets strictly
below `len(frames) - frame_size` and so never examines the final
complete frame when the data length is an exact multiple of the frame
size. -/
theorem C10_last_frame_skipped :
    VadDetector.detect_speech true 5000 (.ok cexWav)
        (fun c r => .ok (cexVadB c r)) = false ∧
    VadDetector.speech_by_complete_frames cexVadB cexWav = true := by
  constructor
  · rw [VadDetector.detect_speech_pure 5000 cexWav cexVadB rfl rfl
      (by decide)]
    have hverd : VadDetector.examinedVerdicts cexVadB cexWav = [false] := by
      decide
    rw [VadDetector.speech_by_examined_frames, hverd]
    norm_num [VadDetector.ratio_verdict]
  · have hverd : VadDetector.completeVerdicts cexVadB cexWav =
        [false, true] := by decide
    rw [VadDetector.speech_by_complete_frames, hverd]
    norm_num [VadDetector.ratio_verdict]

/-- Claim C10 (amended): the file-level `detect_speech` is total over
its input. It returns silence for a nonexistent path and for a WAV file
that is not mono, not 16-bit, or whose sample rate is not one of 8000,
16000, 32000 or 48000 Hz; when the file cannot be parsed as WAV or the
VAD itself throws, it falls back to the file-size heuristic
(`size > 1000`); and for a readable accepted file with a non-throwing
VAD it returns speech exactly when more than 30% of the frames its scan
examines are VAD-positive — the examined frames start at byte offsets
`0, fs, ...` strictly below `len(frames) - fs`, which omits the final
complete 20 ms frame whenever the data length is an exact multiple of
the frame size. -/
theorem C10_detect_speech_characterization :
    (∀ (size : Nat) (wav : Except Unit VadDetector.WavParams)
        (vad : List Nat → Nat → Except Unit Bool),
      VadDetector.detect_speech false size wav vad = false) ∧
    (∀ (size : Nat) (e : Unit) (vad : List Nat → Nat → Except Unit Bool),
      VadDetector.detect_speech true size (.error e) vad =
        decide (1000 < size)) ∧
    (∀ (size : Nat) (wf : VadDetector.WavParams)
        (vad : List Nat → Nat → Except Unit Bool), wf.nchannels ≠ 1 →
      VadDetector.detect_speech true size (.ok wf) vad = false) ∧
    (∀ (size : Nat) (wf : VadDetector.WavParams)
        (vad : List Nat → Nat → Except Unit Bool), wf.sampwidth ≠ 2 →
      VadDetector.detect_speech true size (.ok wf) vad = false) ∧
    (∀ (size : Nat) (wf : VadDetector.WavParams)
        (vad : List Nat → Nat → Except Unit Bool),
      ¬ wf.framerate ∈ [8000, 16000, 32000, 48000] →
      VadDetector.detect_speech true size (.ok wf) vad = false) ∧
    (∀ (size : Nat) (wf : VadDetector.WavParams)
        (vadB : List Nat → Nat → Bool),
      wf.nchannels = 1 → wf.sampwidth = 2 →
      wf.framerate ∈ [8000, 16000, 32000, 48000] →
      VadDetector.detect_speech true size (.ok wf)
          (fun c r => .ok (vadB c r)) =
        VadDetector.speech_by_examined_frames vadB wf) ∧
    (∀ (size : Nat) (wf : VadDetector.WavParams)
        (vad : List Nat → Nat → Except Unit Bool),
      wf.nchannels = 1 → wf.sampwidth = 2 →
      wf.framerate ∈ [8000, 16000, 32000, 48000] →
      VadDetector.vadLoop vad wf.frames wf.framerate
          (wf.framerate * 20 / 1000 * 2)
          (VadDetector.loopOffsets wf.frames.length
            (wf.framerate * 20 / 1000 * 2)) 0 0 = .error () →
      VadDetector.detect_speech true size (.ok wf) vad =
        decide (1000 < size)) := by
  refine ⟨?_, ?_, ?_, ?_, ?_, ?_, ?_⟩
  · intro size wav vad
    simp [VadDetector.detect_speech]
  · intro size e vad
    simp [VadDetector.detect_speech]
  · intro size wf vad h
    simp [VadDetector.detect_speech, h]
  · intro size wf vad h
    by_cases h1 : wf.nchannels = 1 <;>
      simp [VadDetector.detect_speech, h, h1]
  · intro size wf vad h
    by_cases h1 : wf.nchannels = 1 <;>
      by_cases h2 : wf.sampwidth = 2 <;>
        simp [VadDetector.detect_speech, h, h1, h2]
  · intro size wf vadB h1 h2 h3
    exact VadDetector.detect_speech_pure size wf vadB h1 h2 h3
  · intro size wf vad h1 h2 h3 herr
    rw [VadDetector.detect_speech]
    simp only [if_true, h1, h2, h3, ne_eq, not_true_eq_false, if_false,
      not_false_eq_true, ite_false, ite_true]
    rw [herr]

set_option maxRecDepth 8000 in
/-- Witness for C10 (amended), exercising each conditional clause at a
concrete input: wrong channel count, wrong sample width, unaccepted
rate, an accepted file with a pure VAD, and an accepted file whose VAD
always throws. -/
theorem C10_detect_speech_characterization_witness :
    VadDetector.detect_speech true 50
        (.ok { nchannels := 2, sampwidth := 2, framerate := 8000
               frames := [] }) (fun _ _ => .ok true) = false ∧
    VadDetector.detect_speech true 50
        (.ok { nchannels := 1, sampwidth := 3, framerate := 8000
               frames := [] }) (fun _ _ => .ok true) = false ∧
    VadDetector.detect_speech true 50
        (.ok { nchannels := 1, sampwidth := 2, framerate := 44100
               frames := [] }) (fun _ _ => .ok true) = false ∧
    VadDetector.detect_speech true 5000 (.ok cexWav)
        (fun c r => .ok (cexVadB c r)) =
      VadDetector.speech_by_examined_frames cexVadB cexWav ∧
    VadDetector.detect_speech true 5000 (.ok cexWav)
        (fun _ _ => .error ()) = decide (1000 < 5000) :=
  ⟨C10_detect_speech_characterization.2.2.1 50
      { nchannels := 2, sampwidth := 2, framerate := 8000, frames := [] }
      (fun _ _ => .ok true) (by decide),
    C10_detect_speech_characterization.2.2.2.1 50
      { nchannels := 1, sampwidth := 3, framerate := 8000, frames := [] }
      (fun _ _ => .ok true) (by decide),
    C10_detect_speech_characterization.2.2.2.2.1 50
      { nchannels := 1, sampwidth := 2, framerate := 44100, frames := [] }
      (fun _ _ => .ok true) (by decide),
    C10_detect_speech_characterization.2.2.2.2.2.1 5000 cexWav cexVadB
      rfl rfl (by decide),
    C10_detect_speech_characterization.2.2.2.2.2.2 5000 cexWav
      (fun _ _ => .error ()) rfl rfl (by decide) (by rfl)⟩

end VoiceLane
